import Mathlib

/-!
Shallow embedding, in Lean 4, of the duplicate-photo detection core of the
`removebadphotos` repository, together with theorems checking the
natural-language specification against it.

Modelling conventions, used throughout:
* `datetime` values are rational numbers of seconds since an arbitrary epoch
  (only differences and comparisons of timestamps matter to the code under
  study); `datetime.now()` results are passed in as an explicit `now` argument.
* Python `float` arithmetic is modelled with `ℚ` (every quantity the code
  manipulates is derived from integers by `+`, `-`, `*`, `/`, `min`, `max`, so
  the rational model agrees with the source on every comparison the claims
  depend on); byte counts are `ℕ`.
* Python dictionaries are association lists (`List (key × value)`), Python
  sets of strings are `List String` with membership tests.
* Fallible operations are `Except PyErr`; a raised exception is `.error`.
* External libraries (`osxphotos`, `cv2`, `PIL`, `imagehash`, the filesystem)
  are at the boundary of the repository and are modelled as explicit function
  parameters (e.g. `db : String → Option RawPhoto` for the Photos database,
  `fsExists : String → Bool` for `os.path.exists`); the code of this
  repository itself is translated definition by definition.
-/

/-- Python exception values surfaced by the modelled code, tagged by their
Python exception class. -/
inductive PyErr where
  | valueError (msg : String) : PyErr
  | keyError (key : String) : PyErr
  | nameError (msg : String) : PyErr
deriving DecidableEq, Repr

/-- Python truthiness of a string: `""` is falsy. `pyOrStr a b` is the Python
expression `a or b` for an optional string `a`. -/
def pyOrStr (a : Option String) (b : String) : String :=
  match a with
  | some s => if s = "" then b else s
  | none => b

/-- `statistics.mean` / `np.mean` over rationals; the sources always guard the
empty case themselves, the `0` default is never consulted on reachable paths. -/
def meanQ (l : List ℚ) : ℚ :=
  if l.length = 0 then 0 else l.sum / l.length

/-- Python `max(l)` over a nonempty rational list (`0` default unreachable). -/
def maxQ (l : List ℚ) : ℚ := l.foldl max (l.head?.getD 0)

/-- Python `min(l)` over a nonempty rational list (`0` default unreachable). -/
def minQ (l : List ℚ) : ℚ := l.foldl min (l.head?.getD 0)

/-- Python `max(l, default=0)` over natural numbers. -/
def maxNat (l : List ℕ) : ℕ := l.foldl max 0

/-- Python `max(iterable, key=k)`: the result is the FIRST element attaining
the maximal key (CPython replaces the running best only on a strictly greater
key); `none` on the empty list, where CPython would raise. -/
def pyMaxBy {α : Type} (k : α → ℚ) : List α → Option α
  | [] => none
  | x :: xs => some (xs.foldl (fun best c => if k best < k c then c else best) x)

/-- Zero-pad a counter to 4 digits: Python `f"{n:04d}"`. -/
def pad4 (n : ℕ) : String :=
  let s := toString n
  if s.length < 4 then String.mk (List.replicate (4 - s.length) '0') ++ s else s

/-- Zero-pad a counter to 2 digits: Python `f"{n:02d}"`. -/
def pad2 (n : ℕ) : String :=
  let s := toString n
  if s.length < 2 then String.mk (List.replicate (2 - s.length) '0') ++ s else s

/-- Number of occurrences of a character in a string: Python `s.count(c)`. -/
def countChar (s : String) (c : Char) : ℕ := s.toList.count c

/-- An `osxphotos` photo object, restricted to the attributes the repository
reads. Attributes that osxphotos reports as possibly missing are `Option`s. -/
structure RawPhoto where
  uuid : String
  filenameAttr : Option String
  originalFilename : Option String
  date : Option ℚ
  path : Option String
  exifCameraMake : Option (Option String)
  exifCameraModel : Option (Option String)
  originalFilesize : Option ℕ
  width : Option ℕ
  height : Option ℕ
  albums : List String
  keywords : List String
  location : Option (ℚ × ℚ)
deriving DecidableEq, Repr

/-! ## library_analyzer.py — data model -/

/-- `library_analyzer.PhotoMetadata`: lightweight metadata for clustering. -/
structure PhotoMetadata where
  uuid : String
  filename : String
  timestamp : ℚ
  file_size : ℕ
  camera_model : Option String
  width : ℕ
  height : ℕ
  has_location : Bool
  latitude : Option ℚ
  longitude : Option ℚ
  albums : List String
  folder_names : List String
  keywords : List String
  organization_score : ℚ
deriving DecidableEq, Repr

/-- `library_analyzer.LibraryStats`. -/
structure LibraryStats where
  total_photos : ℕ
  date_range_start : ℚ
  date_range_end : ℚ
  total_size_bytes : ℕ
  estimated_duplicates : ℕ
  potential_savings_bytes : ℕ
  camera_models : List String
  has_location_data : Bool
deriving DecidableEq, Repr

/-- `library_analyzer.PhotoCluster`. -/
structure PhotoCluster where
  cluster_id : String
  photo_count : ℕ
  time_span_start : ℚ
  time_span_end : ℚ
  total_size_bytes : ℕ
  potential_savings_bytes : ℕ
  duplicate_probability_score : ℕ
  priority_level : String
  camera_model : Option String
  location_summary : Option String
  photo_uuids : List String
deriving DecidableEq, Repr

/-! ## library_analyzer.py — LibraryAnalyzer methods -/

/-- The meaningful-folder extraction inside `quick_scan_library` (and,
identically, inside `PhotoScanner.extract_photo_metadata`): split the path on
`/`, keep parts that are nonempty, do not start with `.`, and are not
`Users`/`Pictures`/`Photos`. -/
def meaningfulFolders (path : String) : List String :=
  (path.splitOn "/").filter
    (fun part => part ≠ "" ∧ ¬ part.startsWith "." ∧
      part ∉ (["Users", "Pictures", "Photos"] : List String))

/-- Folder names derived from an optional path (`if photo.path:` guard, then
`meaningful_folders[-3:]` when more than 3 parts survive). -/
def folderNamesOf (path : Option String) : List String :=
  match path with
  | none => []
  | some s =>
    if s = "" then []
    else
      let mf := meaningfulFolders s
      if 3 < mf.length then mf.drop (mf.length - 3) else mf

/-- `LibraryAnalyzer.calculate_organization_score` (the byte-identical copy in
`PhotoScanner` is also this function): album membership up to 40, folders up
to 30, keywords up to 20, path depth up to 10; capped at 100. -/
def calculate_organization_score (albums folder_names keywords : List String)
    (path : Option String) : ℚ :=
  let s1 : ℚ := if albums ≠ [] then (if 1 < albums.length then 30 + 10 else 30) else 0
  let s2 : ℚ :=
    if folder_names ≠ [] then
      15 + (if 2 ≤ folder_names.length then 10 else 0) +
        (if 3 ≤ folder_names.length then 5 else 0)
    else 0
  let s3 : ℚ := if keywords ≠ [] then (if 3 ≤ keywords.length then 10 + 10 else 10) else 0
  let s4 : ℚ :=
    match path with
    | some p =>
      if p ≠ "" ∧ '/' ∈ p.toList then
        (if 4 ≤ countChar p '/' then 10 else if 3 ≤ countChar p '/' then 5 else 0)
      else 0
    | none => 0
  min (s1 + s2 + s3 + s4) 100

/-- Read of a Python local variable: `none` models a name with no binding
assignment anywhere in the enclosing function, whose read raises `NameError`. -/
def readLocal {α : Type} (v : Option α) (name : String) : Except PyErr α :=
  match v with
  | some x => Except.ok x
  | none => Except.error (PyErr.nameError ("name " ++ name ++ " is not defined"))

/-- The per-entry extraction block of `LibraryAnalyzer.quick_scan_library`
(the body of its `try:`). Line 111 of library_analyzer.py passes
`filename=filename or f"{photo.uuid}.unknown"`, but no statement in
`quick_scan_library` ever assigns a local named `filename`, so that read
raises `NameError`; the construction after it is dead code, translated
faithfully all the same. -/
def extractQuickScanEntry (now : ℚ) (photo : RawPhoto) : Except PyErr PhotoMetadata := do
  let albums := photo.albums
  let keywords := photo.keywords
  let folder_names := folderNamesOf photo.path
  let org_score := calculate_organization_score albums folder_names keywords photo.path
  let filename ← readLocal (none : Option String) "filename"
  Except.ok
    { uuid := photo.uuid
      filename := if filename = "" then photo.uuid ++ ".unknown" else filename
      timestamp := photo.date.getD now
      file_size := photo.originalFilesize.getD 0
      camera_model := photo.exifCameraModel.bind id
      width := photo.width.getD 0
      height := photo.height.getD 0
      has_location := photo.location.isSome
      latitude := photo.location.map Prod.fst
      longitude := photo.location.map Prod.snd
      albums := albums
      folder_names := folder_names
      keywords := keywords
      organization_score := org_score }

/-- Accumulators of the `quick_scan_library` scan loop: metadata list, total
size, camera-model set, timestamp list, has-location count. A failed
extraction is logged and skipped (`except ... continue`). -/
def quickScanLoop (now : ℚ) :
    List RawPhoto → List PhotoMetadata × ℕ × List String × List ℚ × ℕ
  | [] => ([], 0, [], [], 0)
  | photo :: rest =>
    match extractQuickScanEntry now photo with
    | Except.error _ => quickScanLoop now rest
    | Except.ok m =>
      let (ms, sz, cams, ts, locs) := quickScanLoop now rest
      (m :: ms, m.file_size + sz,
        (match m.camera_model with
         | some c => if c ∈ cams then cams else c :: cams
         | none => cams),
        m.timestamp :: ts,
        (if m.has_location then 1 else 0) + locs)

/-- `LibraryAnalyzer.quick_scan_library`: fast metadata-only scan. Returns the
library statistics and the per-photo metadata list. -/
def quick_scan_library (now : ℚ) (photos : List RawPhoto) :
    LibraryStats × List PhotoMetadata :=
  let (ms, sz, cams, ts, locs) := quickScanLoop now photos
  ({ total_photos := ms.length
     date_range_start := if ts ≠ [] then minQ ts else now
     date_range_end := if ts ≠ [] then maxQ ts else now
     total_size_bytes := sz
     estimated_duplicates := 0
     potential_savings_bytes := 0
     camera_models := cams
     has_location_data := 0 < locs }, ms)

/-- `LibraryAnalyzer.are_locations_similar`: GPS coordinate pairs are similar
when the latitude range and longitude range over the valid (non-`None`)
coordinates are both at most the threshold (default 0.001 ≈ 100m). -/
def are_locations_similar (threshold : ℚ) (locations : List (Option ℚ × Option ℚ)) : Bool :=
  if locations.length < 2 then true
  else
    let valid := locations.filterMap
      (fun lp => match lp with
        | (some la, some ln) => some (la, ln)
        | _ => none)
    if valid.length < 2 then true
    else
      let lat_values := valid.map Prod.fst
      let lng_values := valid.map Prod.snd
      decide (maxQ lat_values - minQ lat_values ≤ threshold) &&
        decide (maxQ lng_values - minQ lng_values ≤ threshold)

/-- `LibraryAnalyzer.get_location_summary`. -/
def get_location_summary (photos : List PhotoMetadata) : Option String :=
  let photos_with_location := photos.filter (·.has_location)
  if photos_with_location = [] then none
  else if photos_with_location.length = 1 then some "Single location"
  else
    let locations := photos_with_location.map (fun p => (p.latitude, p.longitude))
    if are_locations_similar (1/1000) locations then
      some ("Same location (" ++ toString photos_with_location.length ++ " photos)")
    else
      some ("Multiple locations (" ++ toString photos_with_location.length ++ " photos)")

/-- Consecutive timestamp gaps `time_spans` of
`calculate_duplicate_probability_score`. -/
def timeSpans : List PhotoMetadata → List ℚ
  | a :: b :: rest => (b.timestamp - a.timestamp) :: timeSpans (b :: rest)
  | _ => []

/-- Time-clustering factor (the "40% weight" block) of
`calculate_duplicate_probability_score`: +40 when the mean gap is ≤5s, +30
when ≤10s, +20 when the largest gap is ≤60s, else 0. -/
def timeComponent (photos : List PhotoMetadata) : ℕ :=
  let spans := timeSpans photos
  let avg_time_span := if spans ≠ [] then meanQ spans else 0
  let max_time_span := if spans ≠ [] then maxQ spans else 0
  if avg_time_span ≤ 5 then 40
  else if avg_time_span ≤ 10 then 30
  else if max_time_span ≤ 60 then 20
  else 0

/-- File-size factor (the "30% weight" block) of
`calculate_duplicate_probability_score`: up to 30 from the average size in MB
plus up to a further 15 from the total cluster size in MB. -/
def sizeComponent (photos : List PhotoMetadata) : ℕ :=
  let avg_file_size := meanQ (photos.map (fun p => (p.file_size : ℚ))) / (1024 * 1024)
  let total_cluster_size := ((photos.map (·.file_size)).sum : ℚ) / (1024 * 1024)
  (if 10 < avg_file_size then 30
   else if 5 < avg_file_size then 20
   else if 2 < avg_file_size then 10
   else 0) +
  (if 100 < total_cluster_size then 15
   else if 50 < total_cluster_size then 10
   else 0)

/-- Camera-consistency factor (the "20% weight" block): +20 when at most one
distinct non-`None` camera model occurs. -/
def cameraComponent (photos : List PhotoMetadata) : ℕ :=
  if ((photos.filterMap (·.camera_model)).dedup).length ≤ 1 then 20 else 0

/-- Geolocation factor (the "10% weight" block): +10 when at least two members
carry a location and those locations are within the similarity threshold. -/
def locationComponent (photos : List PhotoMetadata) : ℕ :=
  let photos_with_location := photos.filter (·.has_location)
  if 2 ≤ photos_with_location.length ∧
      are_locations_similar (1/1000)
        (photos_with_location.map (fun p => (p.latitude, p.longitude))) = true
  then 10 else 0

/-- `LibraryAnalyzer.calculate_duplicate_probability_score`: 0 for fewer than
2 photos, otherwise the factor sum clamped by `min(score, 100)`. -/
def calculate_duplicate_probability_score (photos : List PhotoMetadata) : ℕ :=
  if photos.length < 2 then 0
  else
    min (timeComponent photos + sizeComponent photos + cameraComponent photos +
      locationComponent photos) 100

/-- The 10-step priority ladder inlined in `LibraryAnalyzer.identify_clusters`
(lines 201–221): score ≥90 → P1, ≥80 → P2, …, ≥10 → P9, otherwise P10. -/
def priorityLevelOfScore (score : ℕ) : String :=
  if 90 ≤ score then "P1"
  else if 80 ≤ score then "P2"
  else if 70 ≤ score then "P3"
  else if 60 ≤ score then "P4"
  else if 50 ≤ score then "P5"
  else if 40 ≤ score then "P6"
  else if 30 ≤ score then "P7"
  else if 20 ≤ score then "P8"
  else if 10 ≤ score then "P9"
  else "P10"

/-- Cluster construction inside `identify_clusters` for a seed (`base_photo`)
and the absorbed tail (`cluster_photos = base :: tail`). -/
def mkCluster (counter : ℕ) (base : PhotoMetadata) (tail : List PhotoMetadata) :
    PhotoCluster :=
  let members := base :: tail
  let total_size := (members.map (·.file_size)).sum
  let score := calculate_duplicate_probability_score members
  { cluster_id := "cluster_" ++ pad4 counter
    photo_count := members.length
    time_span_start := base.timestamp
    time_span_end := (members.getLast (List.cons_ne_nil base tail)).timestamp
    total_size_bytes := total_size
    potential_savings_bytes := total_size - maxNat (members.map (·.file_size))
    duplicate_probability_score := score
    priority_level := priorityLevelOfScore score
    camera_model := base.camera_model
    location_summary := get_location_summary members
    photo_uuids := members.map (·.uuid) }

/-- Inner candidate loop of `identify_clusters`: scan the photos after the
seed, skipping already-used ones, stopping at the first photo past the time
window (the list is sorted), and absorbing photos whose camera model equals
the seed's (`None == None` matches). -/
def collectCluster (base : PhotoMetadata) (window_end : ℚ) (used : List String) :
    List PhotoMetadata → List PhotoMetadata
  | [] => []
  | c :: rest =>
    if c.uuid ∈ used then collectCluster base window_end used rest
    else if window_end < c.timestamp then []
    else if c.camera_model = base.camera_model then
      c :: collectCluster base window_end used rest
    else collectCluster base window_end used rest

/-- Outer loop of `identify_clusters`: each unused photo seeds a candidate
cluster; only candidates with more than one member become a `PhotoCluster`
(and only then are their members marked used). -/
def identifyClustersAux (window : ℚ) :
    List String → ℕ → List PhotoMetadata → List PhotoCluster
  | _, _, [] => []
  | used, counter, p :: rest =>
    if p.uuid ∈ used then identifyClustersAux window used counter rest
    else
      let tail := collectCluster p (p.timestamp + window) used rest
      if 1 < (p :: tail).length then
        mkCluster counter p tail ::
          identifyClustersAux window (used ++ (p :: tail).map (·.uuid)) (counter + 1) rest
      else identifyClustersAux window used counter rest

/-- Insertion of one element into a timestamp-sorted list. -/
def insertByTime (p : PhotoMetadata) : List PhotoMetadata → List PhotoMetadata
  | [] => [p]
  | q :: qs =>
    if p.timestamp ≤ q.timestamp then p :: q :: qs else q :: insertByTime p qs

/-- `photos.sort(key=lambda p: p.timestamp)` as an insertion sort. -/
def sortByTime : List PhotoMetadata → List PhotoMetadata
  | [] => []
  | p :: ps => insertByTime p (sortByTime ps)

/-- `LibraryAnalyzer.identify_clusters`: sort by timestamp, then a single
forward pass with a fresh used-set and cluster counter starting at 1. -/
def identify_clusters (photos : List PhotoMetadata) (time_window_seconds : ℚ) :
    List PhotoCluster :=
  identifyClustersAux time_window_seconds [] 1 (sortByTime photos)

/-! ## photo_scanner.py — data model -/

/-- `photo_scanner.PhotoData`. The dataclass declares `timestamp: datetime`
but `extract_photo_metadata` stores `photo.date`, which osxphotos can report
as `None`; the field is therefore optional here, mirroring the stored value.
A perceptual hash is the 64-bit pHash bit string. -/
structure PhotoData where
  uuid : String
  path : Option String
  filename : String
  timestamp : Option ℚ
  camera_model : Option String
  camera_make : Option String
  file_size : ℕ
  width : ℕ
  height : ℕ
  fileFormat : String
  albums : List String
  folder_names : List String
  keywords : List String
  organization_score : ℚ
  original_filename : Option String
  perceptual_hash : Option (List Bool)
  quality_score : ℚ
  analyzed : Bool
deriving DecidableEq, Repr

/-- Timestamp of a photo inside the grouping pipeline. Every photo reaching
a comparison of timestamps has passed the `p.timestamp is not None` filter of
`group_photos_by_time_and_camera` (comparing `None` would raise in Python),
so the default is never consulted on reachable paths. -/
def tVal (p : PhotoData) : ℚ := p.timestamp.getD 0

/-- `photo_scanner.PhotoGroup`. -/
structure PhotoGroup where
  group_id : String
  photos : List PhotoData
  recommended_photo_uuid : String
  time_window_start : ℚ
  time_window_end : ℚ
  camera_model : String
  total_size_bytes : ℕ
  potential_savings_bytes : ℕ
deriving DecidableEq, Repr

/-! ## photo_scanner.py — PhotoScanner methods -/

/-- Python truthiness test `photo.path and os.path.exists(photo.path)` with
the filesystem passed in as `fsExists`. -/
def pathIsAccessible (fsExists : String → Bool) (path : Option String) : Bool :=
  match path with
  | some s => s ≠ "" && fsExists s
  | none => false

/-- `PhotoScanner.extract_photo_metadata` (the body of its `try:`; the
`except` branch only fires on exceptions raised by osxphotos attribute
access, which the record model cannot raise, so it is unreachable here). -/
def extract_photo_metadata (photo : RawPhoto) : PhotoData :=
  let uuid := photo.uuid
  let filename := pyOrStr photo.filenameAttr
    (pyOrStr photo.originalFilename (uuid ++ ".unknown"))
  let path := photo.path
  let format_str :=
    match photo.originalFilename with
    | some ofn =>
      if ofn ≠ "" then
        (if '.' ∈ ofn.toList then ((ofn.splitOn ".").getLastD "").toUpper else "unknown")
      else
        match photo.filenameAttr with
        | some fn =>
          if fn ≠ "" then
            (if '.' ∈ fn.toList then ((fn.splitOn ".").getLastD "").toUpper else "unknown")
          else "unknown"
        | none => "unknown"
    | none =>
      match photo.filenameAttr with
      | some fn =>
        if fn ≠ "" then
          (if '.' ∈ fn.toList then ((fn.splitOn ".").getLastD "").toUpper else "unknown")
        else "unknown"
      | none => "unknown"
  let albums := photo.albums
  let keywords := photo.keywords
  let folder_names := folderNamesOf path
  let org_score := calculate_organization_score albums folder_names keywords path
  { uuid := uuid
    path := path
    filename := filename
    timestamp := photo.date
    camera_model := photo.exifCameraModel.bind id
    camera_make := photo.exifCameraMake.bind id
    file_size := photo.originalFilesize.getD 0
    width := photo.width.getD 0
    height := photo.height.getD 0
    fileFormat := format_str
    albums := albums
    folder_names := folder_names
    keywords := keywords
    organization_score := org_score
    original_filename := photo.originalFilename
    perceptual_hash := none
    quality_score := 0
    analyzed := false }

/-- `PhotoScanner.analyze_photo_quality`: metadata-only quality score in
[0,100] — resolution up to 30, file size up to 25, container format up to 20,
organization up to 25. -/
def analyze_photo_quality (p : PhotoData) : ℚ :=
  let pixel_count := p.width * p.height
  let s1 : ℚ :=
    if 8000000 < pixel_count then 30
    else if 4000000 < pixel_count then 22
    else if 2000000 < pixel_count then 15
    else 8
  let s2 : ℚ :=
    if 5000000 < p.file_size then 25
    else if 2000000 < p.file_size then 18
    else if 1000000 < p.file_size then 12
    else 5
  let s3 : ℚ :=
    if p.fileFormat.toUpper ∈ (["HEIC", "RAW", "DNG"] : List String) then 20
    else if p.fileFormat.toUpper ∈ (["JPEG", "JPG"] : List String) then 15
    else 8
  let s4 : ℚ :=
    if 0 < p.organization_score then p.organization_score / 100 * 25 else 0
  min (s1 + s2 + s3 + s4) 100

/-- Group construction inside `group_photos_by_time_and_camera` for a seed and
its absorbed tail; the recommendation at this stage is the newest photo. -/
def mkTimeGroup (idx : ℕ) (base : PhotoData) (tail : List PhotoData) : PhotoGroup :=
  let group_photos := base :: tail
  let total_size := (group_photos.map (·.file_size)).sum
  let recommended := (pyMaxBy tVal group_photos).getD base
  { group_id := "group_" ++ pad4 idx
    photos := group_photos
    recommended_photo_uuid := recommended.uuid
    time_window_start := tVal base
    time_window_end := tVal (group_photos.getLast (List.cons_ne_nil base tail))
    camera_model := base.camera_model.getD "Unknown"
    total_size_bytes := total_size
    potential_savings_bytes := total_size - maxNat (group_photos.map (·.file_size)) }

/-- Inner candidate loop of `group_photos_by_time_and_camera` (same structure
as `collectCluster`, over `PhotoData`). -/
def collectGroup (base : PhotoData) (window_end : ℚ) (used : List String) :
    List PhotoData → List PhotoData
  | [] => []
  | c :: rest =>
    if c.uuid ∈ used then collectGroup base window_end used rest
    else if window_end < tVal c then []
    else if c.camera_model = base.camera_model then
      c :: collectGroup base window_end used rest
    else collectGroup base window_end used rest

/-- Outer loop of `group_photos_by_time_and_camera`; the group id counter is
`len(groups)+1`, i.e. one more than the number of groups already created. -/
def groupPhotosAux (window : ℚ) :
    List String → ℕ → List PhotoData → List PhotoGroup
  | _, _, [] => []
  | used, count, p :: rest =>
    if p.uuid ∈ used then groupPhotosAux window used count rest
    else
      let tail := collectGroup p (tVal p + window) used rest
      if 1 < (p :: tail).length then
        mkTimeGroup (count + 1) p tail ::
          groupPhotosAux window (used ++ (p :: tail).map (·.uuid)) (count + 1) rest
      else groupPhotosAux window used count rest

/-- Insertion of one element into a timestamp-sorted `PhotoData` list. -/
def insertByTVal (p : PhotoData) : List PhotoData → List PhotoData
  | [] => [p]
  | q :: qs => if tVal p ≤ tVal q then p :: q :: qs else q :: insertByTVal p qs

/-- `valid_photos.sort(key=lambda p: p.timestamp)` as an insertion sort. -/
def sortByTVal : List PhotoData → List PhotoData
  | [] => []
  | p :: ps => insertByTVal p (sortByTVal ps)

/-- `PhotoScanner.group_photos_by_time_and_camera`: drop photos without a
timestamp, sort by timestamp, then the seed-and-absorb pass. -/
def group_photos_by_time_and_camera (photos : List PhotoData)
    (time_window_seconds : ℚ) : List PhotoGroup :=
  let valid_photos := photos.filter (fun p => p.timestamp.isSome)
  groupPhotosAux time_window_seconds [] 0 (sortByTVal valid_photos)

/-- `PhotoScanner.compute_perceptual_hash`: `None` without an accessible local
path; otherwise the decode-and-hash work of PIL/imagehash, modelled by the
`hashOracle` boundary function (`none` models a decode failure, which the
source catches and turns into `None`). -/
def compute_perceptual_hash (fsExists : String → Bool)
    (hashOracle : String → Option (List Bool)) (p : PhotoData) : Option (List Bool) :=
  match p.path with
  | none => none
  | some s => if s ≠ "" && fsExists s then hashOracle s else none

/-- Hamming distance of two pHash bit strings (`h1 - h2` on imagehash
objects). -/
def hammingDistance (a b : List Bool) : ℕ :=
  (List.zipWith (fun x y => decide (x ≠ y)) a b).count true

/-- `PhotoScanner.calculate_visual_similarity` on two present hashes:
`(1 - hamming/64) * 100`, clamped to [0,100]. (The `if not hash1 or not
hash2` guard returns 0 for an empty hash.) -/
def calculate_visual_similarity (h1 h2 : List Bool) : ℚ :=
  if h1 = [] ∨ h2 = [] then 0
  else max 0 (min 100 ((1 - (hammingDistance h1 h2 : ℚ) / 64) * 100))

/-- The recommendation block of `filter_groups_by_visual_similarity`
(lines 615–620): prefer the photo with the highest quality score among the
photos whose score is positive, falling back to the newest photo. Python
`max` keeps the first element attaining the maximum. -/
def recommendPhoto (subgroup_photos : List PhotoData) : Option PhotoData :=
  let photos_with_quality := subgroup_photos.filter (fun p => 0 < p.quality_score)
  if photos_with_quality ≠ [] then pyMaxBy (·.quality_score) photos_with_quality
  else pyMaxBy tVal subgroup_photos

/-- Inner absorb loop of the star grouping in
`filter_groups_by_visual_similarity`: photos similar to the SEED join the
subgroup and are marked used. Returns the absorbed photos and the updated
used-set. -/
def absorbSimilar (base : PhotoData) (threshold : ℚ) :
    List String → List PhotoData → List PhotoData × List String
  | used, [] => ([], used)
  | used, c :: rest =>
    if c.uuid ∈ used then absorbSimilar base threshold used rest
    else if threshold ≤ calculate_visual_similarity
        (base.perceptual_hash.getD []) (c.perceptual_hash.getD []) then
      let (more, used2) := absorbSimilar base threshold (used ++ [c.uuid]) rest
      (c :: more, used2)
    else absorbSimilar base threshold used rest

/-- Outer star-grouping loop: each unused photo seeds a subgroup (and is
marked used even when its subgroup stays a singleton); only subgroups with
more than one member are kept. -/
def starSubgroups (threshold : ℚ) :
    List String → List PhotoData → List (List PhotoData)
  | _, [] => []
  | used, p :: rest =>
    if p.uuid ∈ used then starSubgroups threshold used rest
    else
      let (sims, used2) := absorbSimilar p threshold (used ++ [p.uuid]) rest
      let sub := p :: sims
      if 1 < sub.length then sub :: starSubgroups threshold used2 rest
      else starSubgroups threshold used2 rest

/-- Subgroup-to-`PhotoGroup` conversion of
`filter_groups_by_visual_similarity` (executed only for subgroups with more
than one member, so the empty-list defaults are never consulted there). -/
def mkSimSubgroup (parent : PhotoGroup) (i : ℕ) (subgroup_photos : List PhotoData) :
    PhotoGroup :=
  let total_size := (subgroup_photos.map (·.file_size)).sum
  { group_id := parent.group_id ++ "_sim_" ++ pad2 (i + 1)
    photos := subgroup_photos
    recommended_photo_uuid := ((recommendPhoto subgroup_photos).map (·.uuid)).getD ""
    time_window_start := minQ (subgroup_photos.map tVal)
    time_window_end := maxQ (subgroup_photos.map tVal)
    camera_model := parent.camera_model
    total_size_bytes := total_size
    potential_savings_bytes := total_size - maxNat (subgroup_photos.map (·.file_size)) }

/-- Per-group body of `filter_groups_by_visual_similarity`. Hash
materialization mutates the `PhotoData` objects of `group.photos` in place in
the source; here the group is rebuilt with the updated photo list (`photos2`),
which the two pass-through `refined_groups.append(group)` sites observe. -/
def refineOneGroup (fsExists : String → Bool)
    (hashOracle : String → Option (List Bool)) (threshold : ℚ)
    (group : PhotoGroup) : List PhotoGroup :=
  if group.photos.length ≤ 1 then [group]
  else
    let photos2 := group.photos.map (fun p =>
      if p.perceptual_hash = none then
        { p with perceptual_hash := compute_perceptual_hash fsExists hashOracle p }
      else p)
    let photos_with_hashes := photos2.filter (fun p => p.perceptual_hash.isSome)
    if photos_with_hashes.length ≤ 1 then [{ group with photos := photos2 }]
    else
      let subgroups := starSubgroups threshold [] photos_with_hashes
      let photos_without_hashes := photos2.filter (fun p => p.perceptual_hash = none)
      let subgroups2 :=
        subgroups ++ (if photos_without_hashes ≠ [] then [photos_without_hashes] else [])
      (subgroups2.enum.filterMap (fun si =>
        if 1 < si.2.length then some (mkSimSubgroup { group with photos := photos2 } si.1 si.2)
        else none))

/-- `PhotoScanner.filter_groups_by_visual_similarity`: refine each time-based
group into visually similar subgroups, in input order. -/
def filter_groups_by_visual_similarity (fsExists : String → Bool)
    (hashOracle : String → Option (List Bool)) (threshold : ℚ)
    (groups : List PhotoGroup) : List PhotoGroup :=
  (groups.map (refineOneGroup fsExists hashOracle threshold)).flatten

/-- `PhotoScanner.enhanced_grouping_with_similarity`: for every not-yet
analyzed photo, compute a perceptual hash and a quality score (image-based via
the `imgQuality` boundary oracle when a local file is accessible, metadata
based otherwise) and set the analyzed flag; then re-point the group's
recommendation at the highest-quality photo when any photo has a positive
score. -/
def enhanced_grouping_with_similarity (fsExists : String → Bool)
    (hashOracle : String → Option (List Bool)) (imgQuality : String → ℚ)
    (groups : List PhotoGroup) : List PhotoGroup :=
  groups.map (fun group =>
    let photos2 := group.photos.map (fun p =>
      if ¬ p.analyzed then
        let h := compute_perceptual_hash fsExists hashOracle p
        let q :=
          if pathIsAccessible fsExists p.path then imgQuality (p.path.getD "")
          else analyze_photo_quality p
        { p with perceptual_hash := h, quality_score := q, analyzed := true }
      else p)
    let photos_with_quality := photos2.filter (fun p => 0 < p.quality_score)
    let rec2 :=
      match pyMaxBy (·.quality_score) photos_with_quality with
      | some best => best.uuid
      | none => group.recommended_photo_uuid
    { group with photos := photos2, recommended_photo_uuid := rec2 })

/-! ## lazy_photo_loader.py — LazyPhotoLoader -/

/-- `lazy_photo_loader.ClusterLoadResult`. (The wall-clock
`load_time_seconds` field is real time and is not modelled.) -/
structure ClusterLoadResult where
  cluster_id : String
  photos : List PhotoData
  photo_count : ℕ
  total_size_bytes : ℕ
deriving DecidableEq, Repr

/-- The mutable state of a `LazyPhotoLoader`: the cluster cache and metadata
cache dictionaries and the cache timestamp. -/
structure LoaderState where
  cluster_cache : List (String × PhotoCluster)
  metadata_cache : List (String × PhotoMetadata)
  cache_timestamp : Option ℚ
deriving DecidableEq, Repr

/-- A freshly constructed `LazyPhotoLoader` (both caches empty). -/
def initialLoaderState : LoaderState :=
  { cluster_cache := [], metadata_cache := [], cache_timestamp := none }

/-- `LazyPhotoLoader.get_library_metadata_fast`: run the metadata scan and the
cluster pass and replace both caches. Returns the clusters together with the
updated loader state. (The `library_stats` presentation dictionary built at
the end of the method repackages `quick_scan_library`'s `LibraryStats` for the
API response and is not modelled.) -/
def get_library_metadata_fast (now : ℚ) (photos : List RawPhoto)
    (st : LoaderState) : (LibraryStats × List PhotoCluster) × LoaderState :=
  let (stats, photo_metadata) := quick_scan_library now photos
  let clusters := identify_clusters photo_metadata 10
  ((stats, clusters),
    { st with
      cluster_cache := clusters.map (fun c => (c.cluster_id, c))
      metadata_cache := photo_metadata.map (fun p => (p.uuid, p))
      cache_timestamp := some now })

/-- The filter criteria dictionary of `load_filtered_clusters`. An outer
`none` models an absent (or falsy, for the year/priority/camera/file-type
keys, which are guarded by truthiness) key; for the size keys, presence with
value `None` is distinct from absence, so they are doubly optional. -/
structure ClusterFilters where
  year : Option Int
  min_size_mb : Option (Option ℚ)
  max_size_mb : Option (Option ℚ)
  priority_levels : Option (List String)
  camera_models : Option (List String)
  file_types : Option (List String)
deriving DecidableEq, Repr

/-- The empty filter dictionary `{}`. -/
def noFilters : ClusterFilters :=
  { year := none, min_size_mb := none, max_size_mb := none,
    priority_levels := none, camera_models := none, file_types := none }

/-- File-extension extraction of the file-type filter: extension after the
last dot, uppercased, with `JPEG` normalized to `JPG`. -/
def normalizedExt (filename : String) : Option String :=
  if '.' ∈ filename.toList then
    let ext := ((filename.splitOn ".").getLastD "").toUpper
    some (if ext = "JPEG" then "JPG" else ext)
  else none

/-- Does a cluster contain a photo (resolved through the metadata cache)
whose file extension is in the requested set? -/
def clusterHasFileType (metadata_cache : List (String × PhotoMetadata))
    (file_type_set : List String) (c : PhotoCluster) : Bool :=
  c.photo_uuids.any (fun uuid =>
    match metadata_cache.lookup uuid with
    | some pm =>
      match normalizedExt pm.filename with
      | some ext => ext ∈ file_type_set
      | none => false
    | none => false)

/-- `LazyPhotoLoader.load_filtered_clusters`: raises `ValueError` when the
cluster cache is empty, otherwise applies the year, size, priority, camera
and file-type filters in turn to the cached cluster list. `yearFn` is the
calendar (`datetime.year`) at the modelling boundary. -/
def load_filtered_clusters (yearFn : ℚ → Int) (st : LoaderState)
    (filters : ClusterFilters) : Except PyErr (List PhotoCluster) :=
  if st.cluster_cache = [] then
    Except.error (PyErr.valueError
      "No cached clusters available. Run get_library_metadata_fast() first.")
  else
    let fc0 := st.cluster_cache.map Prod.snd
    let fc1 :=
      match filters.year with
      | some y => fc0.filter (fun c =>
          yearFn c.time_span_start = y ∨ yearFn c.time_span_end = y)
      | none => fc0
    let fc2 :=
      if filters.min_size_mb ≠ none ∨ filters.max_size_mb ≠ none then
        let min_size_mb := (filters.min_size_mb.getD (some 0)).getD 0
        let max_size_mb := (filters.max_size_mb.getD none).bind some
        let min_size := min_size_mb * 1024 * 1024
        fc1.filter (fun c =>
          decide (min_size ≤ (c.total_size_bytes : ℚ)) &&
            match max_size_mb with
            | some mx => decide ((c.total_size_bytes : ℚ) ≤ mx * 1024 * 1024)
            | none => true)
      else fc1
    let fc3 :=
      match filters.priority_levels with
      | some ps => fc2.filter (fun c => c.priority_level ∈ ps)
      | none => fc2
    let fc4 :=
      match filters.camera_models with
      | some cams => fc3.filter (fun c =>
          match c.camera_model with
          | some m => decide (m ∈ cams)
          | none => false)
      | none => fc3
    let fc5 :=
      match filters.file_types with
      | some fts =>
        let file_type_set := fts.map (·.toUpper)
        fc4.filter (clusterHasFileType st.metadata_cache file_type_set)
      | none => fc4
    Except.ok fc5

/-- `LazyPhotoLoader.load_cluster_photos`: `ValueError` for an unknown cluster
id; otherwise resolve each member uuid against the Photos database (`db` is
`PhotosDB.get_photo` at the modelling boundary) and convert the resolved
photos with `PhotoScanner.extract_photo_metadata` (a `PhotoData` is always
truthy, so every converted photo is kept). The second component counts the
per-member `db.get_photo` resolution calls this invocation performs: one per
member uuid. Note the source stores nothing — neither cache of the loader is
written — so the state is returned unchanged, and repeated calls repeat the
resolution work. -/
def load_cluster_photos (st : LoaderState) (db : String → Option RawPhoto)
    (cluster_id : String) : Except PyErr (ClusterLoadResult × ℕ) :=
  match st.cluster_cache.lookup cluster_id with
  | none => Except.error (PyErr.valueError ("Cluster " ++ cluster_id ++ " not found in cache"))
  | some cluster =>
    let loaded_photos := (cluster.photo_uuids.filterMap db).map extract_photo_metadata
    Except.ok
      ({ cluster_id := cluster_id
         photos := loaded_photos
         photo_count := loaded_photos.length
         total_size_bytes := (loaded_photos.map (·.file_size)).sum },
       cluster.photo_uuids.length)

/-- Two successive `load_cluster_photos` calls for the same cluster id.
`load_cluster_photos` writes no attribute of the loader (see above), so the
second call runs against an unchanged state: the pair is (first call, second
call). -/
def load_cluster_photos_twice (st : LoaderState) (db : String → Option RawPhoto)
    (cluster_id : String) :
    Except PyErr (ClusterLoadResult × ℕ) × Except PyErr (ClusterLoadResult × ℕ) :=
  (load_cluster_photos st db cluster_id, load_cluster_photos st db cluster_id)

/-- `LazyPhotoLoader.analyze_cluster_photos`: load the cluster's photos (every
call — there is no full-entry cache to hit), return `[]` when nothing loaded,
otherwise run time grouping, similarity-enhanced grouping and visual-similarity
filtering. The second component again counts the per-member resolution calls
made against the backing collection. -/
def analyze_cluster_photos (fsExists : String → Bool)
    (hashOracle : String → Option (List Bool)) (imgQuality : String → ℚ)
    (st : LoaderState) (db : String → Option RawPhoto) (cluster_id : String) :
    Except PyErr (List PhotoGroup × ℕ) := do
  let (load_result, calls) ← load_cluster_photos st db cluster_id
  if load_result.photos = [] then
    Except.ok ([], calls)
  else
    let initial_groups := group_photos_by_time_and_camera load_result.photos 10
    let enhanced_groups :=
      enhanced_grouping_with_similarity fsExists hashOracle imgQuality initial_groups
    let final_groups :=
      filter_groups_by_visual_similarity fsExists hashOracle 70 enhanced_groups
    Except.ok (final_groups, calls)

/-! ## blur_detector.py — BlurDetector -/

/-- `blur_detector.BlurResult`. (`processing_time_ms` is wall clock; the model
reports 0, as `_create_error_result` itself does.) -/
structure BlurResult where
  photo_uuid : String
  image_path : String
  blur_score : ℚ
  blur_level : String
  exposure_score : ℚ
  quality_assessment : String
  processing_time_ms : ℚ
  file_size_bytes : ℕ
  resolution : ℕ × ℕ
deriving DecidableEq, Repr

/-- The three configurable thresholds of a `BlurDetector`
(defaults 50 / 100 / 200). -/
structure BlurThresholds where
  very : ℚ
  moderate : ℚ
  slight : ℚ
deriving DecidableEq, Repr

/-- A decoded grayscale image at the cv2/PIL boundary: its dimensions and its
pixel intensities (0–255). -/
structure GrayImage where
  width : ℕ
  height : ℕ
  pixels : List ℕ
deriving DecidableEq, Repr

/-- The environment of `BlurDetector.analyze_photo` at the library boundary:
the filesystem (existence and size) and image decoding (cv2 with the PIL
fallback, merged: `some` when either loader decodes the file, `none` when
both fail) and the cv2 Laplacian-variance computation. -/
structure BlurEnv where
  fsExists : String → Bool
  fileSizeOf : String → ℕ
  loadImage : String → Option GrayImage
  laplacianVar : GrayImage → ℚ

/-- Number of pixels with intensity at most `i` (the cumulative histogram of
`_analyze_exposure`). -/
def countLE (pixels : List ℕ) (i : ℕ) : ℕ := (pixels.filter (· ≤ i)).length

/-- `np.argmax(cumulative >= q)`: the first intensity bin whose cumulative
frequency reaches `q`, or 0 when none does (argmax of an all-False array). -/
def firstBinReaching (pixels : List ℕ) (total_pixels : ℚ) (q : ℚ) : ℕ :=
  match (List.range 256).find? (fun i => decide (q ≤ (countLE pixels i : ℚ) / total_pixels)) with
  | some i => i
  | none => 0

/-- `BlurDetector._analyze_exposure`: percentile-based dynamic range and mean
brightness, combined into a 0–100 exposure score. (Its `try:` body never
raises in this model, so the `except: return 50` branch is unreachable.) -/
def analyze_exposure (img : GrayImage) : ℚ :=
  let total_pixels : ℚ := (img.height : ℚ) * (img.width : ℚ)
  let p5 := firstBinReaching img.pixels total_pixels (5/100)
  let p95 := firstBinReaching img.pixels total_pixels (95/100)
  let dynamic_range : ℚ := (p95 : ℚ) - (p5 : ℚ)
  let mean_brightness : ℚ := (img.pixels.sum : ℚ) / (img.pixels.length : ℚ)
  let e0 : ℚ :=
    if mean_brightness < 30 then mean_brightness / 30 * 25
    else if 225 < mean_brightness then 100 - (mean_brightness - 225) / 30 * 25
    else 50
  let e1 : ℚ :=
    if dynamic_range < 50 then e0 * (7/10)
    else if 200 < dynamic_range then min (e0 * (11/10)) 100
    else e0
  max 0 (min 100 e1)

/-- `BlurDetector._classify_blur_level`. -/
def classify_blur_level (d : BlurThresholds) (blur_score : ℚ) : String :=
  if blur_score < d.very then "very-blurry"
  else if blur_score < d.moderate then "blurry"
  else if blur_score < d.slight then "slightly-blurry"
  else "sharp"

/-- `BlurDetector._assess_quality`. -/
def assess_quality (blur_level : String) (exposure_score : ℚ) : String :=
  let issues : List String :=
    (if blur_level = "very-blurry" then ["Very blurry"]
     else if blur_level = "blurry" then ["Blurry"]
     else if blur_level = "slightly-blurry" then ["Slightly blurry"]
     else []) ++
    (if exposure_score < 20 then ["Underexposed"]
     else if 80 < exposure_score then ["Overexposed"]
     else [])
  if issues ≠ [] then String.intercalate ", " issues else "Good quality"

/-- `BlurDetector._create_error_result`: the explicit unknown-bucket result
for an image that could not be analyzed. -/
def create_error_result (image_path : String) (photo_uuid : Option String)
    (file_size : ℕ) : BlurResult :=
  { photo_uuid := photo_uuid.getD "unknown"
    image_path := image_path
    blur_score := 0
    blur_level := "unknown"
    exposure_score := 0
    quality_assessment := "Analysis failed"
    processing_time_ms := 0
    file_size_bytes := file_size
    resolution := (0, 0) }

/-- `BlurDetector.analyze_photo`: total — an unreadable image yields the
error result, a decoded image yields the full analysis. -/
def analyze_photo (env : BlurEnv) (d : BlurThresholds) (image_path : String)
    (photo_uuid : Option String) : BlurResult :=
  let file_size := if env.fsExists image_path then env.fileSizeOf image_path else 0
  match env.loadImage image_path with
  | none => create_error_result image_path photo_uuid file_size
  | some img =>
    let blur_score := env.laplacianVar img
    let exposure_score := analyze_exposure img
    let blur_level := classify_blur_level d blur_score
    { photo_uuid := photo_uuid.getD "unknown"
      image_path := image_path
      blur_score := blur_score
      blur_level := blur_level
      exposure_score := exposure_score
      quality_assessment := assess_quality blur_level exposure_score
      processing_time_ms := 0
      file_size_bytes := file_size
      resolution := (img.width, img.height) }

/-- `BlurDetector.analyze_batch`: analyze each path/uuid pair in order (the
progress callback and console output carry no data). -/
def analyze_batch (env : BlurEnv) (d : BlurThresholds)
    (image_paths : List (String × String)) : List BlurResult :=
  image_paths.map (fun pu => analyze_photo env d pu.1 (some pu.2))

/-- The aggregate dictionary returned by `BlurDetector.get_statistics` for a
nonempty result list. -/
structure BlurStats where
  total_analyzed : ℕ
  by_quality_level : List (String × ℕ)
  quality_issues_found : ℕ
  potential_savings_bytes : ℕ
  potential_savings_mb : ℚ
  potential_savings_gb : ℚ
  average_processing_time_ms : ℚ
  total_library_size_gb : ℚ
deriving DecidableEq, Repr

/-- `by_level[key] += 1` on the Python counter dictionary: `KeyError` when the
key is absent. -/
def bumpKey (m : List (String × ℕ)) (key : String) :
    Except PyErr (List (String × ℕ)) :=
  if (m.lookup key).isSome then
    Except.ok (m.map (fun kv => if kv.1 = key then (kv.1, kv.2 + 1) else kv))
  else Except.error (PyErr.keyError key)

/-- The accumulation loop of `get_statistics` over the result list: per-bucket
counts, total size, processing times. -/
def statsLoop (m : List (String × ℕ)) (total_size : ℕ) (times : List ℚ) :
    List BlurResult → Except PyErr (List (String × ℕ) × ℕ × List ℚ)
  | [] => Except.ok (m, total_size, times)
  | r :: rest => do
    let m2 ← bumpKey m r.blur_level
    statsLoop m2 (total_size + r.file_size_bytes) (times ++ [r.processing_time_ms]) rest

/-- `BlurDetector.get_statistics`: `{}` (here `none`) for an empty result
list; otherwise fold the results into the four-bucket counter — raising
`KeyError` for any blur level outside the four initialized buckets — then
derive the savings estimate from the very-blurry and blurry buckets. -/
def get_statistics (results : List BlurResult) : Except PyErr (Option BlurStats) :=
  if results = [] then Except.ok none
  else do
    let total := results.length
    let init : List (String × ℕ) :=
      [("very-blurry", 0), ("blurry", 0), ("slightly-blurry", 0), ("sharp", 0)]
    let (by_level, total_size, processing_times) ← statsLoop init 0 [] results
    let problematic_photos := results.filter
      (fun r => r.blur_level ∈ (["very-blurry", "blurry"] : List String))
    let potential_savings_bytes := (problematic_photos.map (·.file_size_bytes)).sum
    Except.ok (some
      { total_analyzed := total
        by_quality_level := by_level
        quality_issues_found :=
          (by_level.lookup "very-blurry").getD 0 + (by_level.lookup "blurry").getD 0
        potential_savings_bytes := potential_savings_bytes
        potential_savings_mb := (potential_savings_bytes : ℚ) / (1024 * 1024)
        potential_savings_gb := (potential_savings_bytes : ℚ) / (1024 * 1024 * 1024)
        average_processing_time_ms :=
          if processing_times ≠ [] then meanQ processing_times else 0
        total_library_size_gb := (total_size : ℚ) / (1024 * 1024 * 1024) })

/-! ## Example data used by concrete witnesses and counterexamples -/

/-- A small concrete library entry (5 MB, camera "iPhone", t = 0). -/
def exM1 : PhotoMetadata :=
  { uuid := "m1", filename := "a.jpg", timestamp := 0, file_size := 5 * 1024 * 1024,
    camera_model := some "iPhone", width := 100, height := 100, has_location := false,
    latitude := none, longitude := none, albums := [], folder_names := [],
    keywords := [], organization_score := 0 }

/-- A second entry 5 seconds later on the same camera. -/
def exM2 : PhotoMetadata := { exM1 with uuid := "m2", timestamp := 5 }

/-- A 60 MB entry at t = 0. -/
def exL1 : PhotoMetadata := { exM1 with uuid := "l1", file_size := 60 * 1024 * 1024 }

/-- A second 60 MB entry at t = 100. -/
def exL2 : PhotoMetadata :=
  { exM1 with uuid := "l2", timestamp := 100, file_size := 60 * 1024 * 1024 }

/-! ## C1 — the fast scan always comes back empty -/

/-- The per-entry extraction of `quick_scan_library` always raises
`NameError`: the read of the never-assigned local `filename` occurs on every
iteration, before any entry-specific data could matter. -/
lemma extractQuickScanEntry_err (now : ℚ) (p : RawPhoto) :
    extractQuickScanEntry now p =
      Except.error (PyErr.nameError "name filename is not defined") := rfl

/-- Every iteration of the scan loop takes the logged-and-skipped branch. -/
lemma quickScanLoop_eq_nil (now : ℚ) :
    ∀ photos, quickScanLoop now photos = ([], 0, [], [], 0) := by
  intro photos
  induction photos with
  | nil => rfl
  | cons p rest ih => simp [quickScanLoop, extractQuickScanEntry_err, ih]

/-- C1: in the fast metadata-only scan (`quick_scan_library`), the per-entry
extraction block reads a variable `filename` that is never defined, so for
every collection every entry takes the logged-and-skipped error branch: the
scan returns an empty metadata list and stats with `total_photos = 0`, and
the subsequent cluster build over that list (also as orchestrated by
`get_library_metadata_fast`) produces zero clusters. -/
theorem quick_scan_always_empty (now : ℚ) (photos : List RawPhoto)
    (st : LoaderState) :
    (quick_scan_library now photos).2 = [] ∧
    (quick_scan_library now photos).1.total_photos = 0 ∧
    identify_clusters (quick_scan_library now photos).2 10 = [] ∧
    ((get_library_metadata_fast now photos st).1).2 = [] := by
  have h := quickScanLoop_eq_nil now photos
  refine ⟨?_, ?_, ?_, ?_⟩ <;>
    simp [quick_scan_library, get_library_metadata_fast, h, identify_clusters,
      sortByTime, identifyClustersAux]

/-! ## C8 — the priority bucket is a pure function of the score -/

/-- Every cluster emitted by the single forward pass is built by
`mkCluster`. -/
lemma identifyClustersAux_shape (w : ℚ) :
    ∀ (l : List PhotoMetadata) (used : List String) (counter : ℕ)
      (c : PhotoCluster), c ∈ identifyClustersAux w used counter l →
      ∃ n base tail, c = mkCluster n base tail := by
  intro l
  induction l with
  | nil => intro used counter c h; simp [identifyClustersAux] at h
  | cons p rest ih =>
    intro used counter c h
    simp only [identifyClustersAux] at h
    split at h
    · exact ih _ _ _ h
    · split at h
      · rcases List.mem_cons.mp h with rfl | hm
        · exact ⟨_, _, _, rfl⟩
        · exact ih _ _ _ hm
      · exact ih _ _ _ h

/-- The priority field of every produced cluster is exactly the threshold
ladder applied to the cluster's own duplicate-probability score. -/
lemma priority_eq_ladder (photos : List PhotoMetadata) (window : ℚ)
    (c : PhotoCluster) (hc : c ∈ identify_clusters photos window) :
    c.priority_level = priorityLevelOfScore c.duplicate_probability_score := by
  obtain ⟨n, b, t, rfl⟩ :=
    identifyClustersAux_shape window (sortByTime photos) [] 1 c hc
  rfl

/-- The threshold ladder, band by band. -/
lemma priorityLevelOfScore_band (s : ℕ) :
    (90 ≤ s → priorityLevelOfScore s = "P1") ∧
    (80 ≤ s ∧ s < 90 → priorityLevelOfScore s = "P2") ∧
    (70 ≤ s ∧ s < 80 → priorityLevelOfScore s = "P3") ∧
    (60 ≤ s ∧ s < 70 → priorityLevelOfScore s = "P4") ∧
    (50 ≤ s ∧ s < 60 → priorityLevelOfScore s = "P5") ∧
    (40 ≤ s ∧ s < 50 → priorityLevelOfScore s = "P6") ∧
    (30 ≤ s ∧ s < 40 → priorityLevelOfScore s = "P7") ∧
    (20 ≤ s ∧ s < 30 → priorityLevelOfScore s = "P8") ∧
    (10 ≤ s ∧ s < 20 → priorityLevelOfScore s = "P9") ∧
    (s < 10 → priorityLevelOfScore s = "P10") := by
  unfold priorityLevelOfScore
  split_ifs <;>
    refine ⟨?_, ?_, ?_, ?_, ?_, ?_, ?_, ?_, ?_, ?_⟩ <;> intro h <;>
      first | rfl | omega

/-- C8: the priority bucket is a pure deterministic function of the
duplicate-probability score, given by the fixed 10-step threshold ladder
(≥90 → P1, 80–89 → P2, …, 10–19 → P9, <10 → P10); any two clusters with
identical scores receive identical buckets. -/
theorem priority_bucket_pure_ladder (photos : List PhotoMetadata) (window : ℚ)
    (c : PhotoCluster) (hc : c ∈ identify_clusters photos window) :
    c.priority_level = priorityLevelOfScore c.duplicate_probability_score ∧
    (90 ≤ c.duplicate_probability_score → c.priority_level = "P1") ∧
    (80 ≤ c.duplicate_probability_score ∧ c.duplicate_probability_score < 90 →
      c.priority_level = "P2") ∧
    (70 ≤ c.duplicate_probability_score ∧ c.duplicate_probability_score < 80 →
      c.priority_level = "P3") ∧
    (60 ≤ c.duplicate_probability_score ∧ c.duplicate_probability_score < 70 →
      c.priority_level = "P4") ∧
    (50 ≤ c.duplicate_probability_score ∧ c.duplicate_probability_score < 60 →
      c.priority_level = "P5") ∧
    (40 ≤ c.duplicate_probability_score ∧ c.duplicate_probability_score < 50 →
      c.priority_level = "P6") ∧
    (30 ≤ c.duplicate_probability_score ∧ c.duplicate_probability_score < 40 →
      c.priority_level = "P7") ∧
    (20 ≤ c.duplicate_probability_score ∧ c.duplicate_probability_score < 30 →
      c.priority_level = "P8") ∧
    (10 ≤ c.duplicate_probability_score ∧ c.duplicate_probability_score < 20 →
      c.priority_level = "P9") ∧
    (c.duplicate_probability_score < 10 → c.priority_level = "P10") ∧
    (∀ photos2 window2 c2, c2 ∈ identify_clusters photos2 window2 →
      c2.duplicate_probability_score = c.duplicate_probability_score →
      c2.priority_level = c.priority_level) := by
  have key := priority_eq_ladder photos window c hc
  obtain ⟨b1, b2, b3, b4, b5, b6, b7, b8, b9, b10⟩ :=
    priorityLevelOfScore_band c.duplicate_probability_score
  rw [← key] at b1 b2 b3 b4 b5 b6 b7 b8 b9 b10
  refine ⟨key, b1, b2, b3, b4, b5, b6, b7, b8, b9, b10, ?_⟩
  intro photos2 window2 c2 hc2 hscore
  rw [priority_eq_ladder photos2 window2 c2 hc2, key, hscore]

/-- The two-entry example library produces exactly its one expected
cluster. -/
lemma exCluster_mem_identify :
    mkCluster 1 exM1 [exM2] ∈ identify_clusters [exM1, exM2] 10 := by
  have h : identify_clusters [exM1, exM2] 10 = [mkCluster 1 exM1 [exM2]] := by
    norm_num [identify_clusters, sortByTime, insertByTime, identifyClustersAux,
      collectCluster, exM1, exM2]
  rw [h]; exact List.mem_singleton.mpr rfl

/-- Concrete check of C8 at the two-entry example library. -/
theorem priority_bucket_pure_ladder_witness :
    (mkCluster 1 exM1 [exM2]).priority_level =
      priorityLevelOfScore (mkCluster 1 exM1 [exM2]).duplicate_probability_score :=
  (priority_bucket_pure_ladder [exM1, exM2] 10 (mkCluster 1 exM1 [exM2])
    exCluster_mem_identify).1

/-! ## C5 — factor contributions to the duplicate-probability score -/

/-- Counterexample to C5 as stated: a 2-entry cluster of two 60 MB photos.
Its average size exceeds 10 MB (+30) and its aggregate size exceeds 100 MB
(+15), so the file-size-magnitude factor contributes 45 points — more than
the 30 points the claim allows it. -/
theorem size_factor_exceeds_30 :
    2 ≤ ([exL1, exL2] : List PhotoMetadata).length ∧
    ¬ sizeComponent [exL1, exL2] ≤ 30 := by
  constructor
  · simp
  · norm_num [sizeComponent, meanQ, exL1, exL2, exM1]

/-- C5 (amended): for every cluster of at least 2 entries the
duplicate-probability score lies in [0,100] (it is a natural number clamped
at 100) and it is exactly the clamped sum of the four factors, which are
bounded by: time proximity ≤ 40, file-size magnitude ≤ 45 (up to 30 from the
average size plus up to 15 from the aggregate size), device-model
consistency ≤ 20 and geolocation consistency ≤ 10. -/
theorem dup_score_factor_bounds (photos : List PhotoMetadata)
    (h : 2 ≤ photos.length) :
    calculate_duplicate_probability_score photos ≤ 100 ∧
    timeComponent photos ≤ 40 ∧
    sizeComponent photos ≤ 45 ∧
    cameraComponent photos ≤ 20 ∧
    locationComponent photos ≤ 10 ∧
    calculate_duplicate_probability_score photos =
      min (timeComponent photos + sizeComponent photos + cameraComponent photos +
        locationComponent photos) 100 := by
  refine ⟨?_, ?_, ?_, ?_, ?_, ?_⟩
  · unfold calculate_duplicate_probability_score
    split_ifs <;> simp [Nat.min_le_right]
  · unfold timeComponent; simp only []; split_ifs <;> omega
  · unfold sizeComponent; simp only []; split_ifs <;> omega
  · unfold cameraComponent; split_ifs <;> omega
  · unfold locationComponent; simp only []; split_ifs <;> omega
  · unfold calculate_duplicate_probability_score
    rw [if_neg (by omega)]

/-- Concrete check of the amended C5 at the two-60MB-entry cluster. -/
theorem dup_score_factor_bounds_witness :
    calculate_duplicate_probability_score [exL1, exL2] ≤ 100 ∧
    timeComponent [exL1, exL2] ≤ 40 ∧
    sizeComponent [exL1, exL2] ≤ 45 ∧
    cameraComponent [exL1, exL2] ≤ 20 ∧
    locationComponent [exL1, exL2] ≤ 10 ∧
    calculate_duplicate_probability_score [exL1, exL2] =
      min (timeComponent [exL1, exL2] + sizeComponent [exL1, exL2] +
        cameraComponent [exL1, exL2] + locationComponent [exL1, exL2]) 100 :=
  dup_score_factor_bounds [exL1, exL2] (by simp)

/-! ## C7 — cluster member invariants -/

/-- Membership in an insertion step. -/
lemma mem_insertByTime (p : PhotoMetadata) :
    ∀ (l : List PhotoMetadata) (x : PhotoMetadata),
      x ∈ insertByTime p l ↔ x = p ∨ x ∈ l := by
  intro l
  induction l with
  | nil => intro x; simp [insertByTime]
  | cons q qs ih =>
    intro x
    simp only [insertByTime]
    split
    · simp [List.mem_cons]
    · simp [List.mem_cons, ih]; tauto

/-- Insertion preserves sortedness by timestamp. -/
lemma pairwise_insertByTime (p : PhotoMetadata) :
    ∀ (l : List PhotoMetadata),
      l.Pairwise (fun a b => a.timestamp ≤ b.timestamp) →
      (insertByTime p l).Pairwise (fun a b => a.timestamp ≤ b.timestamp) := by
  intro l
  induction l with
  | nil => intro _; simp [insertByTime]
  | cons q qs ih =>
    intro hp
    rcases List.pairwise_cons.mp hp with ⟨hq, hqs⟩
    simp only [insertByTime]
    split
    · rename_i hle
      refine List.pairwise_cons.mpr ⟨?_, hp⟩
      intro y hy
      rcases List.mem_cons.mp hy with rfl | hy2
      · exact hle
      · exact le_trans hle (hq y hy2)
    · rename_i hgt
      refine List.pairwise_cons.mpr ⟨?_, ih hqs⟩
      intro y hy
      rcases (mem_insertByTime p qs y).mp hy with rfl | hy2
      · exact le_of_not_le hgt
      · exact hq y hy2

/-- The sort at the top of `identify_clusters` produces a timestamp-sorted
list. -/
lemma sortByTime_pairwise :
    ∀ l : List PhotoMetadata,
      (sortByTime l).Pairwise (fun a b => a.timestamp ≤ b.timestamp) := by
  intro l
  induction l with
  | nil => simp [sortByTime]
  | cons p ps ih => exact pairwise_insertByTime p _ ih

/-- Every photo absorbed by the inner candidate loop comes from the scanned
suffix, matches the seed's camera model, and is no later than the window
end. -/
lemma collectCluster_spec (base : PhotoMetadata) (wEnd : ℚ) (used : List String) :
    ∀ (l : List PhotoMetadata) (c : PhotoMetadata),
      c ∈ collectCluster base wEnd used l →
      c ∈ l ∧ c.camera_model = base.camera_model ∧ c.timestamp ≤ wEnd := by
  intro l
  induction l with
  | nil => intro c h; simp [collectCluster] at h
  | cons x rest ih =>
    intro c h
    simp only [collectCluster] at h
    split at h
    · rcases ih c h with ⟨h1, h2, h3⟩
      exact ⟨List.mem_cons_of_mem _ h1, h2, h3⟩
    · split at h
      · simp at h
      · split at h
        · rename_i hnotused hintime hcam
          rcases List.mem_cons.mp h with rfl | hm
          · exact ⟨List.mem_cons_self _ _, hcam, le_of_not_lt hintime⟩
          · rcases ih c hm with ⟨h1, h2, h3⟩
            exact ⟨List.mem_cons_of_mem _ h1, h2, h3⟩
        · rcases ih c h with ⟨h1, h2, h3⟩
          exact ⟨List.mem_cons_of_mem _ h1, h2, h3⟩

/-- Over a timestamp-sorted input, every produced cluster is `mkCluster` of a
seed and a tail whose members all match the seed's camera model and fall in
`[seed time, seed time + window]`. -/
lemma identifyClustersAux_spec (w : ℚ) (hw : 0 ≤ w) :
    ∀ (l : List PhotoMetadata) (used : List String) (counter : ℕ),
      l.Pairwise (fun a b => a.timestamp ≤ b.timestamp) →
      ∀ c ∈ identifyClustersAux w used counter l,
        ∃ n base tail, c = mkCluster n base tail ∧
          ∀ m ∈ base :: tail,
            m.camera_model = base.camera_model ∧
            base.timestamp ≤ m.timestamp ∧
            m.timestamp ≤ base.timestamp + w := by
  intro l
  induction l with
  | nil => intro used counter _ c h; simp [identifyClustersAux] at h
  | cons p rest ih =>
    intro used counter hsorted c h
    rcases List.pairwise_cons.mp hsorted with ⟨hall, hrest⟩
    simp only [identifyClustersAux] at h
    split at h
    · exact ih used counter hrest c h
    · split at h
      · rcases List.mem_cons.mp h with rfl | hm
        · refine ⟨counter, p, _, rfl, ?_⟩
          intro m hm
          rcases List.mem_cons.mp hm with rfl | hmt
          · exact ⟨rfl, le_refl _, by linarith⟩
          · rcases collectCluster_spec p (p.timestamp + w) used rest m hmt with
              ⟨h1, h2, h3⟩
            exact ⟨h2, hall m h1, h3⟩
        · exact ih _ _ hrest c hm
      · exact ih used counter hrest c h

/-- C7: for every cluster produced by `identify_clusters` (with a nonnegative
window), there is a member list `ms` realizing the cluster's uuid list such
that every member's device model equals the cluster's model (`Option`
equality, so two `None`s also match), every member's timestamp lies within
`[seed time, seed time + window]` — the seed time being the cluster's
recorded `time_span_start` — and consequently adjacent members of `ms` are
never farther apart than the window. -/
theorem cluster_member_invariants (photos : List PhotoMetadata) (window : ℚ)
    (hw : 0 ≤ window) (c : PhotoCluster)
    (hc : c ∈ identify_clusters photos window) :
    ∃ ms : List PhotoMetadata, ms ≠ [] ∧
      c.photo_uuids = ms.map (·.uuid) ∧
      (∀ m ∈ ms, m.camera_model = c.camera_model) ∧
      (∀ m ∈ ms, c.time_span_start ≤ m.timestamp ∧
        m.timestamp ≤ c.time_span_start + window) ∧
      List.Chain' (fun a b => b.timestamp - a.timestamp ≤ window) ms := by
  obtain ⟨n, base, tail, rfl, hmem⟩ :=
    identifyClustersAux_spec window hw (sortByTime photos) [] 1
      (sortByTime_pairwise photos) c hc
  refine ⟨base :: tail, List.cons_ne_nil _ _, rfl, ?_, ?_, ?_⟩
  · intro m hm
    exact (hmem m hm).1
  · intro m hm
    exact ⟨(hmem m hm).2.1, (hmem m hm).2.2⟩
  · apply List.Pairwise.chain'
    apply List.pairwise_of_forall_mem_list
    intro a ha b hb
    have h1 := (hmem a ha).2
    have h2 := (hmem b hb).2
    linarith [h1.1, h2.2]

/-- Concrete check of C7 at the two-entry example library. -/
theorem cluster_member_invariants_witness :
    ∃ ms : List PhotoMetadata, ms ≠ [] ∧
      (mkCluster 1 exM1 [exM2]).photo_uuids = ms.map (·.uuid) ∧
      (∀ m ∈ ms, m.camera_model = (mkCluster 1 exM1 [exM2]).camera_model) ∧
      (∀ m ∈ ms, (mkCluster 1 exM1 [exM2]).time_span_start ≤ m.timestamp ∧
        m.timestamp ≤ (mkCluster 1 exM1 [exM2]).time_span_start + 10) ∧
      List.Chain' (fun a b => b.timestamp - a.timestamp ≤ 10) ms :=
  cluster_member_invariants [exM1, exM2] 10 (by norm_num)
    (mkCluster 1 exM1 [exM2]) exCluster_mem_identify

/-! ## C10 — filtering requires a non-empty cluster cache -/

/-- C10: `load_filtered_clusters` raises its no-cached-clusters error
whenever the cached cluster set is empty — and the state left behind by a
completed `get_library_metadata_fast` scan (which, over this code base,
always caches zero clusters) triggers the very same generic
`ValueError`, so callers cannot distinguish "no scan has run" from "scan
found no clusters". -/
theorem filter_clusters_cache_guard (yearFn : ℚ → Int) (st : LoaderState)
    (filters : ClusterFilters) (h : st.cluster_cache = []) :
    load_filtered_clusters yearFn st filters =
      Except.error (PyErr.valueError
        "No cached clusters available. Run get_library_metadata_fast() first.") ∧
    (∀ (now : ℚ) (photos : List RawPhoto) (st0 : LoaderState),
      load_filtered_clusters yearFn ((get_library_metadata_fast now photos st0).2)
          filters =
        Except.error (PyErr.valueError
          "No cached clusters available. Run get_library_metadata_fast() first.")) := by
  constructor
  · unfold load_filtered_clusters
    rw [if_pos h]
  · intro now photos st0
    have hloop := quickScanLoop_eq_nil now photos
    have hempty : ((get_library_metadata_fast now photos st0).2).cluster_cache = [] := by
      simp [get_library_metadata_fast, quick_scan_library, hloop, identify_clusters,
        sortByTime, identifyClustersAux]
    unfold load_filtered_clusters
    rw [if_pos hempty]

/-- Concrete check of C10 on a freshly constructed loader. -/
theorem filter_clusters_cache_guard_witness :
    load_filtered_clusters (fun _ => 1970) initialLoaderState noFilters =
      Except.error (PyErr.valueError
        "No cached clusters available. Run get_library_metadata_fast() first.") :=
  (filter_clusters_cache_guard (fun _ => 1970) initialLoaderState noFilters rfl).1

/-! ## C2 / C3 — example loader states and databases -/

/-- A cached cluster whose single member id resolves against nothing. -/
def exClusterOne : PhotoCluster :=
  { cluster_id := "cluster_0001", photo_count := 1, time_span_start := 0,
    time_span_end := 0, total_size_bytes := 0, potential_savings_bytes := 0,
    duplicate_probability_score := 0, priority_level := "P10",
    camera_model := none, location_summary := none, photo_uuids := ["u1"] }

/-- A cached cluster with two member ids. -/
def exClusterTwo : PhotoCluster :=
  { exClusterOne with photo_count := 2, photo_uuids := ["u1", "u2"] }

/-- Loader state caching only `exClusterOne`. -/
def stOneCluster : LoaderState :=
  { cluster_cache := [("cluster_0001", exClusterOne)], metadata_cache := [],
    cache_timestamp := none }

/-- Loader state caching only `exClusterTwo`. -/
def stTwoCluster : LoaderState :=
  { cluster_cache := [("cluster_0001", exClusterTwo)], metadata_cache := [],
    cache_timestamp := none }

/-- A backing collection that resolves no id at all. -/
def dbEmpty : String → Option RawPhoto := fun _ => none

/-- A resolvable backing photo. -/
def exRawU1 : RawPhoto :=
  { uuid := "u1", filenameAttr := some "a.jpg", originalFilename := none,
    date := some 0, path := none, exifCameraMake := none, exifCameraModel := none,
    originalFilesize := some 100, width := some 10, height := some 10,
    albums := [], keywords := [], location := none }

/-- A second resolvable backing photo. -/
def exRawU2 : RawPhoto := { exRawU1 with uuid := "u2", date := some 5 }

/-- A backing collection resolving exactly `u1` and `u2`. -/
def dbTwo : String → Option RawPhoto := fun u =>
  if u = "u1" then some exRawU1 else if u = "u2" then some exRawU2 else none

/-! ## C2 — zero resolved ids is an ordinary empty result, not an error -/

/-- Counterexample to C2 as stated: a cached cluster with the non-empty
member-id list `["u1"]`, none of whose ids resolve, makes `load_cluster_photos`
return an ordinary `ClusterLoadResult` with an empty photo list — a plain
empty result, not a hard error — and `analyze_cluster_photos` then returns an
empty group list. -/
theorem zero_resolution_not_an_error :
    exClusterOne.photo_uuids ≠ [] ∧
    load_cluster_photos stOneCluster dbEmpty "cluster_0001" =
      Except.ok ({ cluster_id := "cluster_0001"
                   photos := []
                   photo_count := 0
                   total_size_bytes := 0 }, 1) ∧
    analyze_cluster_photos (fun _ => false) (fun _ => none) (fun _ => 0)
        stOneCluster dbEmpty "cluster_0001" =
      Except.ok ([], 1) := by
  refine ⟨by simp [exClusterOne], rfl, rfl⟩

/-- `(l.filterMap f).length` counts the elements on which `f` hits. -/
lemma length_filterMap_eq_length_filter {α β : Type} (f : α → Option β) :
    ∀ l : List α, (l.filterMap f).length =
      (l.filter (fun a => (f a).isSome)).length := by
  intro l
  induction l with
  | nil => rfl
  | cons a rest ih =>
    cases h : f a <;>
      simp [List.filterMap_cons, List.filter_cons, h, ih]

/-- C2 (amended): for every cached cluster, `load_cluster_photos` resolves
each member id once and returns exactly the resolved subset as a partial
success; when none of the ids of a non-empty member list resolve it does NOT
report a hard error — it returns an ordinary result with an empty photo list
(and `analyze_cluster_photos` reports an empty group list), indistinguishable
from an empty result. -/
theorem load_cluster_partial_resolution (st : LoaderState)
    (db : String → Option RawPhoto) (cid : String) (cluster : PhotoCluster)
    (h : st.cluster_cache.lookup cid = some cluster) :
    ∃ res : ClusterLoadResult,
      load_cluster_photos st db cid = Except.ok (res, cluster.photo_uuids.length) ∧
      res.photos.length =
        (cluster.photo_uuids.filter (fun u => (db u).isSome)).length ∧
      ((∀ u ∈ cluster.photo_uuids, db u = none) →
        res.photos = [] ∧
        ∀ (fsE : String → Bool) (hO : String → Option (List Bool))
          (iQ : String → ℚ),
          analyze_cluster_photos fsE hO iQ st db cid =
            Except.ok ([], cluster.photo_uuids.length)) := by
  have hload : load_cluster_photos st db cid =
      Except.ok
        ({ cluster_id := cid
           photos := (cluster.photo_uuids.filterMap db).map extract_photo_metadata
           photo_count := ((cluster.photo_uuids.filterMap db).map
             extract_photo_metadata).length
           total_size_bytes := (((cluster.photo_uuids.filterMap db).map
             extract_photo_metadata).map (·.file_size)).sum },
         cluster.photo_uuids.length) := by
    unfold load_cluster_photos
    rw [h]
  refine ⟨_, hload, ?_, ?_⟩
  · simp [length_filterMap_eq_length_filter]
  · intro hnone
    have hnil : cluster.photo_uuids.filterMap db = [] :=
      List.filterMap_eq_nil_iff.mpr hnone
    refine ⟨by simp [hnil], ?_⟩
    intro fsE hO iQ
    unfold analyze_cluster_photos
    rw [hload]
    simp [hnil, Bind.bind, Except.bind]

/-- Concrete check of the amended C2 on the single-member cluster whose id
does not resolve. -/
theorem load_cluster_partial_resolution_witness :
    ∃ res : ClusterLoadResult,
      load_cluster_photos stOneCluster dbEmpty "cluster_0001" =
        Except.ok (res, exClusterOne.photo_uuids.length) ∧
      res.photos.length =
        (exClusterOne.photo_uuids.filter (fun u => (dbEmpty u).isSome)).length ∧
      ((∀ u ∈ exClusterOne.photo_uuids, dbEmpty u = none) →
        res.photos = [] ∧
        ∀ (fsE : String → Bool) (hO : String → Option (List Bool))
          (iQ : String → ℚ),
          analyze_cluster_photos fsE hO iQ stOneCluster dbEmpty "cluster_0001" =
            Except.ok ([], exClusterOne.photo_uuids.length)) :=
  load_cluster_partial_resolution stOneCluster dbEmpty "cluster_0001"
    exClusterOne rfl

/-! ## C3 — there is no full-entry cache: a repeat load re-resolves -/

/-- Counterexample to C3 as stated: for a cached two-member cluster whose ids
both resolve, the SECOND of two successive `load_cluster_photos` calls again
performs one backing-collection resolution per member — 2 calls, not the 0 a
cache hit would make. (`load_cluster_photos` writes no loader state, so the
second call runs against exactly the state the first saw.) -/
theorem second_load_resolves_again :
    (load_cluster_photos_twice stTwoCluster dbTwo "cluster_0001").2.map Prod.snd =
      Except.ok 2 ∧ (2 : ℕ) ≠ 0 := by
  exact ⟨rfl, by decide⟩

/-- C3 (amended): `load_cluster_photos` keeps no full-entry cache. A second
call for the same cluster id returns the same result as the first only
because it redoes the same work against the unchanged state: every call —
first or repeat — performs exactly one backing-collection resolution per
member id, and `analyze_cluster_photos` likewise re-loads (re-resolving every
member) on every call instead of reusing previously loaded entries. -/
theorem load_cluster_no_fullentry_cache (st : LoaderState)
    (db : String → Option RawPhoto) (cid : String) (cluster : PhotoCluster)
    (h : st.cluster_cache.lookup cid = some cluster) :
    (load_cluster_photos_twice st db cid).2 =
      (load_cluster_photos_twice st db cid).1 ∧
    (load_cluster_photos_twice st db cid).2.map Prod.snd =
      Except.ok cluster.photo_uuids.length ∧
    ∀ (fsE : String → Bool) (hO : String → Option (List Bool)) (iQ : String → ℚ),
      (analyze_cluster_photos fsE hO iQ st db cid).map Prod.snd =
        Except.ok cluster.photo_uuids.length := by
  have hload : load_cluster_photos st db cid =
      Except.ok
        ({ cluster_id := cid
           photos := (cluster.photo_uuids.filterMap db).map extract_photo_metadata
           photo_count := ((cluster.photo_uuids.filterMap db).map
             extract_photo_metadata).length
           total_size_bytes := (((cluster.photo_uuids.filterMap db).map
             extract_photo_metadata).map (·.file_size)).sum },
         cluster.photo_uuids.length) := by
    unfold load_cluster_photos
    rw [h]
  refine ⟨rfl, ?_, ?_⟩
  · unfold load_cluster_photos_twice
    rw [hload]
    rfl
  · intro fsE hO iQ
    unfold analyze_cluster_photos
    rw [hload]
    simp only [Bind.bind, Except.bind]
    split <;> rfl

/-- Concrete check of the amended C3 on the two-member cluster. -/
theorem load_cluster_no_fullentry_cache_witness :
    (load_cluster_photos_twice stTwoCluster dbTwo "cluster_0001").2 =
      (load_cluster_photos_twice stTwoCluster dbTwo "cluster_0001").1 ∧
    (load_cluster_photos_twice stTwoCluster dbTwo "cluster_0001").2.map Prod.snd =
      Except.ok exClusterTwo.photo_uuids.length ∧
    ∀ (fsE : String → Bool) (hO : String → Option (List Bool)) (iQ : String → ℚ),
      (analyze_cluster_photos fsE hO iQ stTwoCluster dbTwo "cluster_0001").map
          Prod.snd =
        Except.ok exClusterTwo.photo_uuids.length :=
  load_cluster_no_fullentry_cache stTwoCluster dbTwo "cluster_0001"
    exClusterTwo rfl

/-! ## C6 — BlurClassifier statistics choke on the unknown bucket -/

/-- An environment in which no image can be decoded (cv2 and the PIL fallback
both fail). -/
def envUnreadable : BlurEnv :=
  { fsExists := fun _ => true
    fileSizeOf := fun _ => 4000000
    loadImage := fun _ => none
    laplacianVar := fun _ => 0 }

/-- The default `BlurDetector()` thresholds. -/
def defaultThresholds : BlurThresholds := { very := 50, moderate := 100, slight := 200 }

/-- C6, evaluated at the failing input: `analyze_photo` on an unreadable image
does return the explicit "unknown"-bucket result without raising — but
`get_statistics` on a result list containing it raises `KeyError "unknown"`
at `by_level[result.blur_level] += 1`, because the counter dictionary is
initialized with only the four readable buckets. The spec's promise that
`statistics` aggregates such lists without raising is broken by the code. -/
theorem blur_statistics_keyerror_on_unknown :
    (analyze_photo envUnreadable defaultThresholds "broken.heic" none).blur_level =
      "unknown" ∧
    get_statistics [analyze_photo envUnreadable defaultThresholds "broken.heic" none] =
      Except.error (PyErr.keyError "unknown") := by
  exact ⟨rfl, rfl⟩

/-! ## C4 — which member gets recommended -/

/-- Specification of the CPython `max` fold: the result either is the start
value and nothing beats it, or it is the first list element strictly beating
the start value and everything before it. -/
lemma pyFold_spec {α : Type} (k : α → ℚ) (xs : List α) (b : α) :
    (xs.foldl (fun best c => if k best < k c then c else best) b = b ∧
      ∀ y ∈ xs, k y ≤ k b) ∨
    (∃ r l1 l2,
      xs.foldl (fun best c => if k best < k c then c else best) b = r ∧
      xs = l1 ++ r :: l2 ∧ k b < k r ∧ (∀ y ∈ l1, k y < k r) ∧
      ∀ y ∈ xs, k y ≤ k r) := by
  induction xs generalizing b with
  | nil => exact Or.inl ⟨rfl, by simp⟩
  | cons c xs ih =>
    by_cases hbc : k b < k c
    · have hstep : (c :: xs).foldl (fun best c => if k best < k c then c else best) b =
          xs.foldl (fun best c => if k best < k c then c else best) c := by
        simp [List.foldl_cons, if_pos hbc]
      rcases ih c with ⟨heq, hall⟩ | ⟨r, l1, l2, heq, hsplit, hcr, hl1, hall⟩
      · refine Or.inr ⟨c, [], xs, ?_, rfl, hbc, by simp, ?_⟩
        · rw [hstep, heq]
        · intro y hy
          rcases List.mem_cons.mp hy with rfl | hy2
          · exact le_refl _
          · exact hall y hy2
      · refine Or.inr ⟨r, c :: l1, l2, ?_, ?_, lt_trans hbc hcr, ?_, ?_⟩
        · rw [hstep, heq]
        · rw [hsplit]; rfl
        · intro y hy
          rcases List.mem_cons.mp hy with rfl | hy2
          · exact hcr
          · exact hl1 y hy2
        · intro y hy
          rcases List.mem_cons.mp hy with rfl | hy2
          · exact le_of_lt hcr
          · exact hall y hy2
    · have hstep : (c :: xs).foldl (fun best c => if k best < k c then c else best) b =
          xs.foldl (fun best c => if k best < k c then c else best) b := by
        simp [List.foldl_cons, if_neg hbc]
      rcases ih b with ⟨heq, hall⟩ | ⟨r, l1, l2, heq, hsplit, hbr, hl1, hall⟩
      · refine Or.inl ⟨by rw [hstep, heq], ?_⟩
        intro y hy
        rcases List.mem_cons.mp hy with rfl | hy2
        · exact le_of_not_lt hbc
        · exact hall y hy2
      · refine Or.inr ⟨r, c :: l1, l2, by rw [hstep, heq], ?_, hbr, ?_, ?_⟩
        · rw [hsplit]; rfl
        · intro y hy
          rcases List.mem_cons.mp hy with rfl | hy2
          · exact lt_of_le_of_lt (le_of_not_lt hbc) hbr
          · exact hl1 y hy2
        · intro y hy
          rcases List.mem_cons.mp hy with rfl | hy2
          · exact le_of_lt (lt_of_le_of_lt (le_of_not_lt hbc) hbr)
          · exact hall y hy2

/-- `pyMaxBy` returns a member whose key is maximal and which is the FIRST
element attaining that maximum: everything placed before it has a strictly
smaller key. -/
lemma pyMaxBy_spec {α : Type} (k : α → ℚ) (l : List α) (x : α)
    (h : pyMaxBy k l = some x) :
    x ∈ l ∧ (∀ y ∈ l, k y ≤ k x) ∧
    ∃ l1 l2, l = l1 ++ x :: l2 ∧ ∀ y ∈ l1, k y < k x := by
  cases l with
  | nil => simp [pyMaxBy] at h
  | cons a t =>
    have hx : t.foldl (fun best c => if k best < k c then c else best) a = x :=
      Option.some.inj h
    rcases pyFold_spec k t a with ⟨heq, hall⟩ | ⟨r, l1, l2, heq, hsplit, har, hl1, hall⟩
    · have hax : a = x := by rw [← hx, heq]
      subst hax
      refine ⟨List.mem_cons_self _ _, ?_, [], t, rfl, by simp⟩
      intro y hy
      rcases List.mem_cons.mp hy with rfl | hy2
      · exact le_refl _
      · exact hall y hy2
    · have hrx : r = x := by rw [← hx, heq]
      subst hrx
      refine ⟨?_, ?_, a :: l1, l2, by rw [hsplit]; rfl, ?_⟩
      · rw [hsplit]
        exact List.mem_cons_of_mem _ (by simp)
      · intro y hy
        rcases List.mem_cons.mp hy with rfl | hy2
        · exact le_of_lt har
        · exact hall y hy2
      · intro y hy
        rcases List.mem_cons.mp hy with rfl | hy2
        · exact har
        · exact hl1 y hy2

/-- C4 (amended): the recommended entry of a refined subgroup is chosen among
the members with a POSITIVE quality score as the one with the highest score,
and a tie is broken by list position — the FIRST tied member wins (CPython
`max` keeps the incumbent on equal keys), not the one with the latest capture
time; only when no member has a positive score does the newest member by
capture time get recommended. -/
theorem recommended_entry_first_max (photos : List PhotoData) (p : PhotoData)
    (h : recommendPhoto photos = some p) :
    p ∈ photos ∧
    ((∃ q ∈ photos, 0 < q.quality_score) →
      0 < p.quality_score ∧
      (∀ q ∈ photos, 0 < q.quality_score → q.quality_score ≤ p.quality_score) ∧
      ∃ l1 l2, photos.filter (fun q => 0 < q.quality_score) = l1 ++ p :: l2 ∧
        ∀ q ∈ l1, q.quality_score < p.quality_score) ∧
    ((∀ q ∈ photos, ¬ 0 < q.quality_score) → ∀ q ∈ photos, tVal q ≤ tVal p) := by
  unfold recommendPhoto at h
  by_cases hpos : photos.filter (fun q => 0 < q.quality_score) ≠ []
  · rw [if_pos hpos] at h
    rcases pyMaxBy_spec _ _ _ h with ⟨hmem, hall, l1, l2, hsplit, hl1⟩
    have hmem2 := List.mem_filter.mp hmem
    refine ⟨hmem2.1, ?_, ?_⟩
    · intro _
      refine ⟨by simpa using hmem2.2, ?_, l1, l2, hsplit, hl1⟩
      intro q hq hq2
      exact hall q (List.mem_filter.mpr ⟨hq, by simpa using hq2⟩)
    · intro hnone
      exact absurd (by simpa using hmem2.2) (hnone p hmem2.1)
  · rw [if_neg hpos] at h
    push_neg at hpos
    rcases pyMaxBy_spec _ _ _ h with ⟨hmem, hall, _⟩
    refine ⟨hmem, ?_, fun _ => hall⟩
    intro ⟨q, hq, hq2⟩
    have hqf : q ∈ photos.filter (fun q => 0 < q.quality_score) :=
      List.mem_filter.mpr ⟨hq, by simpa using hq2⟩
    rw [hpos] at hqf
    simp at hqf

/-- The all-zeros 64-bit perceptual hash. -/
def hashZero : List Bool := List.replicate 64 false

/-- Identical hashes are 100% similar. -/
lemma sim_hashZero_self : calculate_visual_similarity hashZero hashZero = 100 := by
  have hham : hammingDistance hashZero hashZero = 0 := rfl
  have hne : ¬ (hashZero = [] ∨ hashZero = []) := by decide
  rw [calculate_visual_similarity, if_neg hne, hham]
  norm_num

/-- A fully analyzed photo with quality score 50 at t = 0. -/
def exP1 : PhotoData :=
  { uuid := "u1", path := none, filename := "p1.jpg", timestamp := some 0,
    camera_model := some "iPhone", camera_make := none, file_size := 1000,
    width := 100, height := 100, fileFormat := "JPG", albums := [],
    folder_names := [], keywords := [], organization_score := 0,
    original_filename := none, perceptual_hash := some hashZero,
    quality_score := 50, analyzed := true }

/-- A second photo tied at quality 50 but captured LATER (t = 10). -/
def exP2 : PhotoData := { exP1 with uuid := "u2", timestamp := some 10 }

/-- A two-photo time group holding the tied pair. -/
def exGroupTie : PhotoGroup :=
  { group_id := "group_0001", photos := [exP1, exP2],
    recommended_photo_uuid := "u2", time_window_start := 0, time_window_end := 10,
    camera_model := "iPhone", total_size_bytes := 2000,
    potential_savings_bytes := 1000 }

/-- Refinement of a two-photo group whose members carry mutually similar
hashes: it yields exactly the one subgroup holding both photos. -/
lemma refine_pair_of_similar (fsE : String → Bool) (hO : String → Option (List Bool))
    (g : PhotoGroup) (p q : PhotoData) (hp hq : List Bool)
    (hg : g.photos = [p, q])
    (hhp : p.perceptual_hash = some hp) (hhq : q.perceptual_hash = some hq)
    (hsim : 70 ≤ calculate_visual_similarity hp hq)
    (hne : q.uuid ≠ p.uuid) :
    filter_groups_by_visual_similarity fsE hO 70 [g] =
      [mkSimSubgroup { g with photos := [p, q] } 0 [p, q]] := by
  simp [filter_groups_by_visual_similarity, refineOneGroup, hg, hhp, hhq,
    starSubgroups, absorbSimilar, hsim, hne, List.enum, List.enumFrom]

/-- The tied pair resolves to its FIRST member under the CPython `max`. -/
lemma recommendPhoto_tie_pair : recommendPhoto [exP1, exP2] = some exP1 := by
  have h1 : exP1.quality_score = 50 := rfl
  have h2 : exP2.quality_score = 50 := rfl
  norm_num [recommendPhoto, pyMaxBy, List.filter, h1, h2]
  intro h _
  exact absurd h (by simp)

/-- Counterexample to C4 as stated: in the refined group built from
`exGroupTie`, both members tie on the highest quality score (50), the member
with the LATEST capture time is `u2` — yet the recommendation goes to `u1`,
the first-listed tied member, because Python `max` keeps the first maximal
element and no capture-time tie-break exists in the code. -/
theorem recommended_tie_not_latest :
    (filter_groups_by_visual_similarity (fun _ => false) (fun _ => none) 70
        [exGroupTie]).map (·.recommended_photo_uuid) = ["u1"] ∧
    exP1.quality_score = exP2.quality_score ∧
    0 < exP1.quality_score ∧
    tVal exP1 < tVal exP2 ∧
    exP1.uuid = "u1" ∧ exP2.uuid = "u2" ∧
    exGroupTie.photos = [exP1, exP2] := by
  have hpair := refine_pair_of_similar (fun _ => false) (fun _ => none) exGroupTie
    exP1 exP2 hashZero hashZero rfl rfl rfl
    (by rw [sim_hashZero_self]; norm_num) (by decide)
  refine ⟨?_, rfl, by norm_num [exP1], by norm_num [tVal, exP1, exP2], rfl, rfl, rfl⟩
  rw [hpair]
  simp [mkSimSubgroup, recommendPhoto_tie_pair]
  rfl

/-- Concrete check of the amended C4 at the tied pair: the first-listed tied
member is recommended. -/
theorem recommended_entry_first_max_witness :
    exP1 ∈ [exP1, exP2] ∧
    ((∃ q ∈ [exP1, exP2], 0 < q.quality_score) →
      0 < exP1.quality_score ∧
      (∀ q ∈ [exP1, exP2], 0 < q.quality_score →
        q.quality_score ≤ exP1.quality_score) ∧
      ∃ l1 l2, [exP1, exP2].filter (fun q => 0 < q.quality_score) =
          l1 ++ exP1 :: l2 ∧
        ∀ q ∈ l1, q.quality_score < exP1.quality_score) ∧
    ((∀ q ∈ [exP1, exP2], ¬ 0 < q.quality_score) →
      ∀ q ∈ [exP1, exP2], tVal q ≤ tVal exP1) :=
  recommended_entry_first_max [exP1, exP2] exP1 recommendPhoto_tie_pair

/-! ## C9 — star-grouping refinement scenario -/

/-- C9: similarity refinement is star grouping in original order. For a group
of 5 hashed entries where the 2nd–4th are each at least 70% similar to the
1st (the common seed) and the 5th is visually distinct from the seed,
refinement emits exactly one output Group holding the 4 mutually-grouped
entries; the distinct entry seeds a singleton subgroup, which is discarded
rather than emitted (only subgroups with at least 2 members become Groups). -/
theorem star_refinement_scenario (fsE : String → Bool)
    (hO : String → Option (List Bool)) (g : PhotoGroup)
    (s a b c d : PhotoData) (hs ha hb hc hd : List Bool)
    (hg : g.photos = [s, a, b, c, d])
    (hhs : s.perceptual_hash = some hs) (hha : a.perceptual_hash = some ha)
    (hhb : b.perceptual_hash = some hb) (hhc : c.perceptual_hash = some hc)
    (hhd : d.perceptual_hash = some hd)
    (hsimA : 70 ≤ calculate_visual_similarity hs ha)
    (hsimB : 70 ≤ calculate_visual_similarity hs hb)
    (hsimC : 70 ≤ calculate_visual_similarity hs hc)
    (hsimD : calculate_visual_similarity hs hd < 70)
    (hnodup : ([s, a, b, c, d].map (·.uuid)).Nodup) :
    (filter_groups_by_visual_similarity fsE hO 70 [g]).map (·.photos) =
      [[s, a, b, c]] := by
  simp only [List.map_cons, List.map_nil, List.nodup_cons, List.mem_cons,
    List.mem_singleton, List.not_mem_nil, not_or, or_false, and_true] at hnodup
  obtain ⟨⟨hsa, hsb, hsc, hsd2⟩, ⟨hab, hac, had⟩, ⟨hbc, hbd⟩, hcd, -, -⟩ := hnodup
  have hsimD2 : ¬ 70 ≤ calculate_visual_similarity hs hd := not_le.mpr hsimD
  simp [filter_groups_by_visual_similarity, refineOneGroup, hg, hhs, hha, hhb,
    hhc, hhd, starSubgroups, absorbSimilar, hsimA, hsimB, hsimC, hsimD2,
    hsa, hsb, hsc, hsd2, hab, hac, had, hbc, hbd, hcd,
    Ne.symm hsa, Ne.symm hsb, Ne.symm hsc, Ne.symm hsd2, Ne.symm hab,
    Ne.symm hac, Ne.symm had, Ne.symm hbc, Ne.symm hbd, Ne.symm hcd,
    List.enum, List.enumFrom, mkSimSubgroup]

/-- A 64-bit hash at Hamming distance 32 from `hashZero`. -/
def hashFar : List Bool := List.replicate 32 false ++ List.replicate 32 true

/-- The far hash is only 50% similar to the zero hash. -/
lemma sim_hashZero_hashFar : calculate_visual_similarity hashZero hashFar = 50 := by
  have hham : hammingDistance hashZero hashFar = 32 := rfl
  have hne : ¬ (hashZero = [] ∨ hashFar = []) := by decide
  rw [calculate_visual_similarity, if_neg hne, hham]
  norm_num

/-- Seed of the concrete refinement scenario. -/
def exS9 : PhotoData := { exP1 with uuid := "s9" }

/-- Scenario member similar to the seed. -/
def exA9 : PhotoData := { exP1 with uuid := "a9" }

/-- Scenario member similar to the seed. -/
def exB9 : PhotoData := { exP1 with uuid := "b9" }

/-- Scenario member similar to the seed. -/
def exC9 : PhotoData := { exP1 with uuid := "c9" }

/-- The visually distinct scenario member. -/
def exD9 : PhotoData := { exP1 with uuid := "d9", perceptual_hash := some hashFar }

/-- The concrete 5-photo scenario group. -/
def exG9 : PhotoGroup := { exGroupTie with photos := [exS9, exA9, exB9, exC9, exD9] }

/-- Concrete check of C9: 4 near-identical photos plus 1 distinct photo
refine into exactly one 4-member group. -/
theorem star_refinement_scenario_witness :
    (filter_groups_by_visual_similarity (fun _ => false) (fun _ => none) 70
        [exG9]).map (·.photos) = [[exS9, exA9, exB9, exC9]] :=
  star_refinement_scenario (fun _ => false) (fun _ => none) exG9
    exS9 exA9 exB9 exC9 exD9 hashZero hashZero hashZero hashZero hashFar
    rfl rfl rfl rfl rfl rfl
    (by rw [sim_hashZero_self]; norm_num)
    (by rw [sim_hashZero_self]; norm_num)
    (by rw [sim_hashZero_self]; norm_num)
    (by rw [sim_hashZero_hashFar]; norm_num)
    (by decide)
